import Mathlib

/-!
Shallow embedding of the authenticated-session core of the axiomtrade-rs
repository, together with theorems settling the specification claims.

Modelling conventions:
* chrono timestamps and durations are modelled as `Int` seconds;
  `std::time::Instant` values used by the rate limiter are `Nat` time points
  and `std::time::Duration` values are `Nat` (milliseconds or abstract units,
  stated per definition).
* Floating point arithmetic in the retry-delay computation is modelled over
  `ℚ` (the formula is exact in `ℚ`; the f64 code computes a rounding of it).
* Randomness (`rand::thread_rng`) is modelled by universally quantified
  oracle inputs: a random index is an arbitrary `Nat` reduced modulo the
  size of the choice set, and a random byte supply is an arbitrary function.
* Network I/O is modelled by oracle functions supplied as arguments; the
  sequencing and error handling around them is translated from the source.
-/

namespace AxiomTrade

/-! ## src/auth/types.rs : AuthTokens and its expiry predicates -/

/-- Model of `AuthTokens` (src/auth/types.rs).  `expires_at` is an optional
timestamp in seconds (chrono `DateTime<Utc>` modelled as `Int`). -/
structure AuthTokens where
  access_token : String
  refresh_token : String
  expires_at : Option Int
  deriving Repr, DecidableEq

/-- Translation of `AuthTokens::is_expired` (src/auth/types.rs lines 191-199):
true when `expires_at` is present and `now >= expires_at - 5 minutes`;
a token with no `expires_at` is never expired.  `now` stands for
`chrono::Utc::now()`. -/
def AuthTokens.is_expired (t : AuthTokens) (now : Int) : Bool :=
  match t.expires_at with
  | some e => decide (now ≥ e - 5 * 60)
  | none => false

/-- Translation of `AuthTokens::needs_refresh` (src/auth/types.rs lines
206-214): same shape with a 15 minute buffer. -/
def AuthTokens.needs_refresh (t : AuthTokens) (now : Int) : Bool :=
  match t.expires_at with
  | some e => decide (now ≥ e - 15 * 60)
  | none => false

/-- C7: `is_expired` is true iff `expires_at` is present and
`now ≥ expires_at − 5 min`; `needs_refresh` is true iff `expires_at` is
present and `now ≥ expires_at − 15 min`; a token with no `expires_at` never
expires and never needs refresh; and the three concrete buffer scenarios:
`expires_at = now − 1s` is expired, `expires_at = now + 1h` does not need
refresh, `expires_at = now + 10min` needs refresh but is not expired. -/
theorem is_expired_needs_refresh_spec (t : AuthTokens) (now : Int)
    (a r : String) :
    (t.is_expired now = true ↔
      ∃ e, t.expires_at = some e ∧ now ≥ e - 5 * 60) ∧
    (t.needs_refresh now = true ↔
      ∃ e, t.expires_at = some e ∧ now ≥ e - 15 * 60) ∧
    (AuthTokens.mk a r (some (now - 1))).is_expired now = true ∧
    (AuthTokens.mk a r (some (now + 3600))).needs_refresh now = false ∧
    (AuthTokens.mk a r (some (now + 600))).needs_refresh now = true ∧
    (AuthTokens.mk a r (some (now + 600))).is_expired now = false := by
  refine ⟨?_, ?_, ?_, ?_, ?_, ?_⟩
  · cases h : t.expires_at with
    | none => simp [AuthTokens.is_expired, h]
    | some e => simp [AuthTokens.is_expired, h]
  · cases h : t.expires_at with
    | none => simp [AuthTokens.needs_refresh, h]
    | some e => simp [AuthTokens.needs_refresh, h]
  · simp [AuthTokens.is_expired]; omega
  · simp [AuthTokens.needs_refresh]
  · simp [AuthTokens.needs_refresh]
  · simp [AuthTokens.is_expired]

/-- C10: hard expiry implies the proactive refresh hint: whenever
`is_expired` returns true, `needs_refresh` returns true at the same
instant (the 5-minute threshold implies the 15-minute threshold). -/
theorem is_expired_implies_needs_refresh (t : AuthTokens) (now : Int)
    (h : t.is_expired now = true) : t.needs_refresh now = true := by
  cases he : t.expires_at with
  | none => simp [AuthTokens.is_expired, he] at h
  | some e =>
    simp [AuthTokens.is_expired, he] at h
    simp [AuthTokens.needs_refresh, he]
    omega

/-- Witness for C10 at a concrete token and instant. -/
theorem is_expired_implies_needs_refresh_witness :
    (AuthTokens.mk "a" "r" (some 100)).needs_refresh 0 = true :=
  is_expired_implies_needs_refresh (AuthTokens.mk "a" "r" (some 100)) 0
    (by decide)

/-! ## src/utils/rate_limiter.rs : sliding-window RateLimiter -/

/-- Configuration of the sliding-window `RateLimiter`
(src/utils/rate_limiter.rs).  Time points (`std::time::Instant`) are `Nat`
and `window` is a `Nat` duration in the same units; the timestamp queue is a
`List Nat` with the oldest entry at the head (`VecDeque` front). -/
structure RateLimiter where
  max_requests : Nat
  window : Nat
  deriving Repr, DecidableEq

/-- Translation of the pruning loop at the top of `RateLimiter::acquire`
(src/utils/rate_limiter.rs lines 42-50): pop entries from the front while
`now.duration_since(front) > window`, stopping at the first survivor.
`Instant::duration_since` saturates at zero, which truncated `Nat`
subtraction models exactly. -/
def pruneExpired (window now : Nat) : List Nat → List Nat
  | [] => []
  | t :: rest =>
      if now - t > window then pruneExpired window now rest else t :: rest

/-- Translation of `RateLimiter::acquire` (src/utils/rate_limiter.rs lines
38-61): prune, then if the queue holds at least `max_requests` entries and
has a front element, return `window - (now - oldest)` without recording;
otherwise push `now` and return 0.  Returns (wait, new queue). -/
def RateLimiter.acquire (rl : RateLimiter) (now : Nat) (requests : List Nat) :
    Nat × List Nat :=
  let pruned := pruneExpired rl.window now requests
  if pruned.length ≥ rl.max_requests then
    match pruned.head? with
    | some oldest => (rl.window - (now - oldest), pruned)
    | none => (0, pruned ++ [now])
  else
    (0, pruned ++ [now])

/-- Iterated acquisition at a fixed instant starting from the empty queue:
returns the list of waits handed out and the final queue. -/
def acquireRepeat (rl : RateLimiter) (now : Nat) : Nat → List Nat × List Nat
  | 0 => ([], [])
  | n + 1 =>
      let p := acquireRepeat rl now n
      let q := rl.acquire now p.2
      (p.1 ++ [q.1], q.2)

theorem pruneExpired_now_zero (w : Nat) (l : List Nat) :
    pruneExpired w 0 l = l := by
  cases l with
  | nil => rfl
  | cons t rest => simp [pruneExpired]

theorem pruneExpired_replicate_gt (w now n : Nat) (h : now > w) :
    pruneExpired w now (List.replicate n 0) = [] := by
  induction n with
  | zero => rfl
  | succ k ih => simpa [pruneExpired, h] using ih

theorem acquireRepeat_instant (rl : RateLimiter) (n : Nat)
    (hn : n ≤ rl.max_requests) :
    acquireRepeat rl 0 n = (List.replicate n 0, List.replicate n 0) := by
  induction n with
  | zero => rfl
  | succ k ih =>
      have hk : k ≤ rl.max_requests := Nat.le_of_succ_le hn
      have hlt : k < rl.max_requests := hn
      simp only [acquireRepeat, ih hk, RateLimiter.acquire,
        pruneExpired_now_zero, List.length_replicate]
      rw [if_neg (by omega)]
      simp [List.replicate_succ']

/-- C6 counterexample: the claim as stated fails on two concrete inputs.
With `max_requests = 1`, `window = 10`, queue `[0]` and `now = 10`, the
queue is at capacity after pruning (the entry aged exactly `window` is not
pruned) yet `acquire` returns wait `0`, not a positive wait.  With
`max_requests = 0` the queue trivially holds at least `max_requests`
entries after pruning, yet `acquire` records a new timestamp and returns
`0` instead of a positive wait without recording. -/
theorem acquire_claim_counterexample :
    (1 ≤ (pruneExpired 10 10 [0]).length ∧
      ((RateLimiter.mk 1 10).acquire 10 [0]).1 = 0) ∧
    ((pruneExpired 10 0 []).length ≥ (RateLimiter.mk 0 10).max_requests ∧
      ((RateLimiter.mk 0 10).acquire 0 []).2 = [0] ∧
      ((RateLimiter.mk 0 10).acquire 0 []).1 = 0) := by
  decide

/-- C6 amended: for `max_requests ≥ 1` and a positive window, `acquire`
prunes entries strictly older than the window; if the pruned queue still
holds at least `max_requests` entries it returns wait
`window − (now − oldest)` — nonnegative, and positive whenever the oldest
survivor is strictly inside the window — without recording; otherwise it
records `now` and returns 0.  Consequently `max_requests` instantaneous
acquisitions all return 0, the `(max_requests+1)`-th returns the full
window (positive), and once strictly more than the window has elapsed a
subsequent `acquire` returns 0. -/
theorem acquire_spec (rl : RateLimiter) (now : Nat) (reqs : List Nat)
    (hmax : 1 ≤ rl.max_requests) (hwin : 0 < rl.window) :
    (∀ oldest rest, pruneExpired rl.window now reqs = oldest :: rest →
        rl.max_requests ≤ (oldest :: rest).length →
        rl.acquire now reqs = (rl.window - (now - oldest), oldest :: rest) ∧
          (now - oldest < rl.window → 0 < rl.window - (now - oldest))) ∧
    ((pruneExpired rl.window now reqs).length < rl.max_requests →
        rl.acquire now reqs = (0, pruneExpired rl.window now reqs ++ [now])) ∧
    (acquireRepeat rl 0 rl.max_requests).1
        = List.replicate rl.max_requests 0 ∧
    (rl.acquire 0 (acquireRepeat rl 0 rl.max_requests).2).1 = rl.window ∧
    0 < (rl.acquire 0 (acquireRepeat rl 0 rl.max_requests).2).1 ∧
    (rl.acquire (rl.window + 1)
        (acquireRepeat rl 0 rl.max_requests).2).1 = 0 := by
  have hrep := acquireRepeat_instant rl rl.max_requests le_rfl
  obtain ⟨m, hm⟩ : ∃ m, rl.max_requests = m + 1 :=
    ⟨rl.max_requests - 1, by omega⟩
  have hfull : (rl.acquire 0 (acquireRepeat rl 0 rl.max_requests).2).1
      = rl.window := by
    rw [hrep]
    simp only [RateLimiter.acquire, pruneExpired_now_zero,
      List.length_replicate]
    rw [if_pos le_rfl, hm]
    simp [List.replicate_succ]
  refine ⟨?_, ?_, ?_, hfull, by rw [hfull]; exact hwin, ?_⟩
  · intro oldest rest hpr hlen
    constructor
    · simp only [RateLimiter.acquire, hpr]
      rw [if_pos hlen]
      rfl
    · omega
  · intro hlt
    simp only [RateLimiter.acquire]
    rw [if_neg (by omega)]
  · rw [hrep]
  · rw [hrep]
    simp only [RateLimiter.acquire,
      pruneExpired_replicate_gt rl.window (rl.window + 1) rl.max_requests
        (by omega)]
    rw [if_neg (by simp; omega)]

/-- Witness for C6 at `max_requests = 2`, `window = 10`. -/
theorem acquire_spec_witness :
    1 ≤ (RateLimiter.mk 2 10).max_requests ∧
    0 < (RateLimiter.mk 2 10).window ∧
    (acquireRepeat (RateLimiter.mk 2 10) 0
        (RateLimiter.mk 2 10).max_requests).1
      = List.replicate (RateLimiter.mk 2 10).max_requests 0 :=
  ⟨by decide, by decide,
    (acquire_spec (RateLimiter.mk 2 10) 7 [] (by decide) (by decide)).2.2.1⟩

/-! ## src/utils/retry.rs : RetryConfig and the backoff delay -/

/-- Model of `RetryConfig` (src/utils/retry.rs lines 5-12).  Delays are in
milliseconds (`Duration::as_millis`), the exponential base (f64 in the
source) is a rational. -/
structure RetryConfig where
  max_retries : Nat
  initial_delay_ms : Nat
  max_delay_ms : Nat
  exponential_base : ℚ
  jitter : Bool
  deriving DecidableEq

/-- Translation of `RetryConfig::default` (src/utils/retry.rs lines 14-24):
3 retries, 100 ms initial delay, 30 s max delay, base 2.0, jitter on. -/
def RetryConfig.default : RetryConfig :=
  RetryConfig.mk 3 100 30000 2 true

/-- Translation of the jitter-free part of `RetryConfig::calculate_delay`
(src/utils/retry.rs lines 108-122): `min(initial_delay * base^attempt,
max_delay)`, in milliseconds over `ℚ` (the f64 computation is a rounding
of this exact value). -/
def RetryConfig.calculate_delay_core (c : RetryConfig) (attempt : Nat) : ℚ :=
  min ((c.initial_delay_ms : ℚ) * c.exponential_base ^ attempt)
    (c.max_delay_ms : ℚ)

/-- Translation of the full `RetryConfig::calculate_delay` with the random
jitter factor (drawn from `[0.5, 1.5)` in the source) passed explicitly. -/
def RetryConfig.calculate_delay (c : RetryConfig) (attempt : Nat)
    (jitter_factor : ℚ) : ℚ :=
  if c.jitter then c.calculate_delay_core attempt * jitter_factor
  else c.calculate_delay_core attempt

/-- C8 counterexample: the claim quantifies over every `RetryConfig`, but
`with_exponential_base` accepts bases below 1, for which the delay is
strictly decreasing: with base 1/2, initial delay 100 ms and max delay
30 s, the delay at attempt 1 (50 ms) is strictly below the delay at
attempt 0 (100 ms). -/
theorem calculate_delay_counterexample :
    RetryConfig.calculate_delay_core
        (RetryConfig.mk 3 100 30000 (1 / 2) false) 1
      < RetryConfig.calculate_delay_core
        (RetryConfig.mk 3 100 30000 (1 / 2) false) 0 := by
  norm_num [RetryConfig.calculate_delay_core]

/-- C8 amended: the delay is `min(initial_delay * base^attempt, max_delay)`
optionally multiplied by the jitter factor; ignoring jitter, for every
config whose `exponential_base` is at least 1 (as in the default config,
base 2.0) the delay is non-decreasing in the attempt number, and for every
config it never exceeds `max_delay`. -/
theorem calculate_delay_spec (c : RetryConfig) (k : Nat) :
    (1 ≤ c.exponential_base →
      c.calculate_delay_core k ≤ c.calculate_delay_core (k + 1)) ∧
    c.calculate_delay_core k ≤ (c.max_delay_ms : ℚ) ∧
    (∀ j, c.jitter = false → c.calculate_delay k j =
      c.calculate_delay_core k) := by
  refine ⟨?_, min_le_right _ _, ?_⟩
  · intro hbase
    have hpow : c.exponential_base ^ k ≤ c.exponential_base ^ (k + 1) :=
      pow_le_pow_right₀ hbase (Nat.le_succ k)
    have hmul : (c.initial_delay_ms : ℚ) * c.exponential_base ^ k
        ≤ (c.initial_delay_ms : ℚ) * c.exponential_base ^ (k + 1) :=
      mul_le_mul_of_nonneg_left hpow (by positivity)
    exact min_le_min hmul le_rfl
  · intro j hj
    simp [RetryConfig.calculate_delay, hj]

/-- Witness for C8 at the default config (base 2.0) and attempt 1. -/
theorem calculate_delay_spec_witness :
    RetryConfig.default.calculate_delay_core 1
        ≤ RetryConfig.default.calculate_delay_core 2 ∧
    RetryConfig.default.calculate_delay_core 1
        ≤ (RetryConfig.default.max_delay_ms : ℚ) :=
  ⟨(calculate_delay_spec RetryConfig.default 1).1 (by norm_num
      [RetryConfig.default]),
    (calculate_delay_spec RetryConfig.default 1).2.1⟩

/-! ## src/auth/client.rs : endpoint rotation -/

/-- Translation of the `API_ENDPOINTS` constant (src/auth/client.rs lines
10-18). -/
def API_ENDPOINTS : List String :=
  ["https://api2.axiom.trade", "https://api3.axiom.trade",
   "https://api6.axiom.trade", "https://api7.axiom.trade",
   "https://api8.axiom.trade", "https://api9.axiom.trade",
   "https://api10.axiom.trade"]

/-- Translation of `AuthClient::get_random_endpoint` (src/auth/client.rs
lines 182-200).  The client state is its `last_used_endpoint` field; the
random draw `rng.gen_range(0..len)` is modelled by an arbitrary `Nat`
reduced modulo the number of available endpoints.  Returns the chosen
endpoint and the updated `last_used_endpoint`. -/
def get_random_endpoint (rand : Nat) (last_used : Option String) :
    String × Option String :=
  let available : List String :=
    match last_used with
    | some last => API_ENDPOINTS.filter (· != last)
    | none => API_ENDPOINTS
  let endpoint := available.getD (rand % available.length) ""
  (endpoint, some endpoint)

/-- Sequence of consecutive endpoint selections by the same client: each
call records its choice, which the next call excludes. -/
def runSelections (rands : List Nat) (last_used : Option String) :
    List String :=
  match rands with
  | [] => []
  | r :: rs =>
      let p := get_random_endpoint r last_used
      p.1 :: runSelections rs p.2

theorem filter_endpoints_ne_nil (last : String) :
    API_ENDPOINTS.filter (· != last) ≠ [] := by
  intro h
  by_cases h2 : "https://api2.axiom.trade" = last
  · have hm : "https://api3.axiom.trade" ∈ API_ENDPOINTS.filter (· != last) := by
      rw [List.mem_filter]
      exact ⟨by simp [API_ENDPOINTS], by rw [← h2]; decide⟩
    rw [h] at hm
    exact (List.not_mem_nil _) hm
  · have hm : "https://api2.axiom.trade" ∈ API_ENDPOINTS.filter (· != last) := by
      rw [List.mem_filter]
      exact ⟨by simp [API_ENDPOINTS], by simpa using h2⟩
    rw [h] at hm
    exact (List.not_mem_nil _) hm

theorem getD_mod_mem {l : List String} (h : l ≠ []) (i : Nat) :
    l.getD (i % l.length) "" ∈ l := by
  have hlen : 0 < l.length := List.length_pos.mpr h
  have hi : i % l.length < l.length := Nat.mod_lt _ hlen
  rw [List.getD_eq_getElem l "" hi]
  exact List.getElem_mem hi

theorem get_random_endpoint_ne_last (r : Nat) (last : String) :
    (get_random_endpoint r (some last)).1 ≠ last := by
  have hmem : (get_random_endpoint r (some last)).1
      ∈ API_ENDPOINTS.filter (· != last) :=
    getD_mod_mem (filter_endpoints_ne_nil last) r
  simpa using (List.mem_filter.mp hmem).2

theorem get_random_endpoint_mem (r : Nat) (s : Option String) :
    (get_random_endpoint r s).1 ∈ API_ENDPOINTS := by
  cases s with
  | none =>
      exact getD_mod_mem (by simp [API_ENDPOINTS]) r
  | some last =>
      have hmem : (get_random_endpoint r (some last)).1
          ∈ API_ENDPOINTS.filter (· != last) :=
        getD_mod_mem (filter_endpoints_ne_nil last) r
      exact (List.mem_filter.mp hmem).1

/-- C5: along any sequence of consecutive selections by the same client
(whatever the random draws and the initial `last_used_endpoint` state), no
two adjacent selections coincide, and every selection comes from the fixed
pool; each call draws from the pool excluding the previously recorded host
and records its choice (the recorded state after a call is exactly the
endpoint it returned). -/
theorem endpoint_rotation_no_repeat (rands : List Nat) (s : Option String) :
    List.Chain' (fun a b => a ≠ b) (runSelections rands s) ∧
    (∀ e ∈ runSelections rands s, e ∈ API_ENDPOINTS) ∧
    (∀ r last, (get_random_endpoint r (some last)).1 ≠ last ∧
      (get_random_endpoint r (some last)).2
        = some (get_random_endpoint r (some last)).1) := by
  refine ⟨?_, ?_, fun r last => ⟨get_random_endpoint_ne_last r last, rfl⟩⟩
  · induction rands generalizing s with
    | nil => simp [runSelections]
    | cons r rs ih =>
        rw [runSelections, List.chain'_cons']
        refine ⟨?_, ih _⟩
        intro y hy
        cases rs with
        | nil => simp [runSelections] at hy
        | cons r2 rs2 =>
            simp only [runSelections, List.head?_cons, Option.mem_def,
              Option.some.injEq] at hy
            rw [← hy]
            exact (get_random_endpoint_ne_last r2 _).symm
  · induction rands generalizing s with
    | nil => simp [runSelections]
    | cons r rs ih =>
        intro e he
        rw [runSelections] at he
        rcases List.mem_cons.mp he with h | h
        · rw [h]; exact get_random_endpoint_mem r s
        · exact ih _ e h

/-! ## src/auth/error.rs and the reqwest error surface -/

/-- Model of the part of `reqwest::Error` the repository inspects:
`is_timeout()`, `is_connect()` and `status()`. -/
structure ReqwestError where
  is_timeout : Bool
  is_connect : Bool
  status : Option Nat
  deriving DecidableEq, Repr

/-- Model of `AuthError` (src/auth/error.rs).  Payloads the code never
inspects are dropped. -/
inductive AuthError where
  | NetworkError (e : ReqwestError)
  | InvalidCredentials
  | OtpRequired
  | InvalidOtp
  | TokenExpired
  | TokenNotFound
  | SerializationError
  | IoError
  | EmailError (msg : String)
  | ApiError (message : String)
  | Unauthorized
  | NotAuthenticated
  deriving DecidableEq, Repr

/-! ## src/auth/client.rs : login step 2 token extraction (C9) -/

/-- Translation of the token-extraction tail of
`AuthClient::login_step2_full` (src/auth/client.rs lines 256-281): the
`Set-Cookie` values are consulted first and the JSON body fields are the
`Option.or` fallback (`access_token.or(response_data.access_token)`),
each missing pair member yielding `TokenNotFound`; the stored tokens get
`expires_at = now + 1 hour`. -/
def login_step2_tokens (cookie_access cookie_refresh
    body_access body_refresh : Option String) (now : Int) :
    Except AuthError AuthTokens :=
  match cookie_access.or body_access with
  | none => .error .TokenNotFound
  | some access =>
      match cookie_refresh.or body_refresh with
      | none => .error .TokenNotFound
      | some refresh => .ok (AuthTokens.mk access refresh (some (now + 3600)))

/-- C9: whenever a cookie supplies a token, the cookie value wins over any
body value; the body value is used only when the cookie is absent; when
neither source supplies one of the tokens the call fails with
`TokenNotFound`. -/
theorem login_step2_cookie_precedence (a r bA bR : String)
    (oA oR : Option String) (now : Int) :
    login_step2_tokens (some a) (some r) oA oR now
        = .ok (AuthTokens.mk a r (some (now + 3600))) ∧
    login_step2_tokens none (some r) (some bA) oR now
        = .ok (AuthTokens.mk bA r (some (now + 3600))) ∧
    login_step2_tokens (some a) none oA (some bR) now
        = .ok (AuthTokens.mk a bR (some (now + 3600))) ∧
    login_step2_tokens none none (some bA) (some bR) now
        = .ok (AuthTokens.mk bA bR (some (now + 3600))) ∧
    login_step2_tokens none (some r) none oR now
        = .error .TokenNotFound ∧
    login_step2_tokens (some a) none oA none now
        = .error .TokenNotFound ∧
    login_step2_tokens none none none (some bR) now
        = .error .TokenNotFound ∧
    login_step2_tokens none none none none now
        = .error .TokenNotFound :=
  ⟨rfl, rfl, rfl, rfl, rfl, rfl, rfl, rfl⟩

/-! ## src/auth/client.rs : stored expires_at across refreshes (C2) -/

/-- Translation of the token construction in `AuthClient::login_step2_full`
(src/auth/client.rs lines 277-281): a fresh login stores
`expires_at = now + 1 hour`. -/
def login_tokens (access refresh : String) (now : Int) : AuthTokens :=
  AuthTokens.mk access refresh (some (now + 3600))

/-- Translation of the token construction in `AuthClient::refresh_tokens`
(src/auth/client.rs lines 391-395): a successful refresh stores
`expires_at = now + 15 minutes`, keeping the old refresh token. -/
def refresh_tokens_update (prev : AuthTokens) (new_access : String)
    (now : Int) : AuthTokens :=
  AuthTokens.mk new_access prev.refresh_token (some (now + 15 * 60))

/-- Translation of the token construction in the 401-refresh path of
`AuthClient::make_authenticated_request` (src/auth/client.rs lines
458-462): stores `expires_at = now + 1 hour`, keeping the old refresh
token. -/
def refresh_401_update (prev : AuthTokens) (new_access : String)
    (now : Int) : AuthTokens :=
  AuthTokens.mk new_access prev.refresh_token (some (now + 3600))

/-- C2 counterexample: `expires_at` can regress on refresh.  A login at
instant 0 stores `expires_at = 3600`; a successful `refresh_tokens` at the
same instant stores `expires_at = 900 < 3600`. -/
theorem expires_at_regression_counterexample :
    (login_tokens "a" "r" 0).expires_at = some 3600 ∧
    (refresh_tokens_update (login_tokens "a" "r" 0) "a2" 0).expires_at
        = some 900 ∧
    (900 : Int) < 3600 :=
  ⟨rfl, rfl, by norm_num⟩

/-- C2 amended: a token without `expires_at` is treated as never-expiring;
each successful refresh stores `expires_at` equal to the refresh instant
plus a fixed horizon (15 minutes in `refresh_tokens`, 1 hour in the
401-retry path), so the stored `expires_at` is non-decreasing across
refreshes through the same path at non-decreasing instants — but it is
not monotone across paths: a `refresh_tokens` call less than 45 minutes
after a login (or after a 401-path refresh) strictly decreases it. -/
theorem expires_at_refresh_spec (t u : AuthTokens) (a a2 : String)
    (t0 t1 now : Int) (h01 : t0 ≤ t1) (hnone : t.expires_at = none) :
    t.is_expired now = false ∧ t.needs_refresh now = false ∧
    (refresh_tokens_update u a2 t1).expires_at = some (t1 + 15 * 60) ∧
    (refresh_401_update u a2 t1).expires_at = some (t1 + 60 * 60) ∧
    (∀ e1 e2, (refresh_tokens_update u a t0).expires_at = some e1 →
        (refresh_tokens_update u a2 t1).expires_at = some e2 → e1 ≤ e2) ∧
    (∀ e1 e2, (refresh_401_update u a t0).expires_at = some e1 →
        (refresh_401_update u a2 t1).expires_at = some e2 → e1 ≤ e2) := by
  refine ⟨?_, ?_, rfl, by simp [refresh_401_update], ?_, ?_⟩
  · simp [AuthTokens.is_expired, hnone]
  · simp [AuthTokens.needs_refresh, hnone]
  · intro e1 e2 h1 h2
    simp only [refresh_tokens_update, Option.some.injEq] at h1 h2
    omega
  · intro e1 e2 h1 h2
    simp only [refresh_401_update, Option.some.injEq] at h1 h2
    omega

/-- Witness for C2 at concrete tokens and instants. -/
theorem expires_at_refresh_spec_witness :
    (AuthTokens.mk "x" "y" none).is_expired 0 = false ∧
    (refresh_tokens_update (AuthTokens.mk "x" "y" none) "b" 7).expires_at
        = some (7 + 15 * 60) :=
  ⟨(expires_at_refresh_spec (AuthTokens.mk "x" "y" none)
      (AuthTokens.mk "x" "y" none) "a" "b" 3 7 0 (by norm_num) rfl).1,
    (expires_at_refresh_spec (AuthTokens.mk "x" "y" none)
      (AuthTokens.mk "x" "y" none) "a" "b" 3 7 0 (by norm_num) rfl).2.2.1⟩

/-! ## src/auth/client.rs : make_authenticated_request and the 401 cycle -/

/-- Abstract HTTP response: the status code and the `auth-access-token`
cookie, which is all that `refresh_token` and
`make_authenticated_request` inspect. -/
structure HttpResponse where
  status : Nat
  access_cookie : Option String
  deriving DecidableEq, Repr

/-- Model of `reqwest::StatusCode::is_success` (2xx). -/
def isSuccessStatus (s : Nat) : Bool := decide (200 ≤ s ∧ s < 300)

/-- Translation of `AuthClient::refresh_token` (src/auth/client.rs lines
347-369), with the network exchange an oracle: `.error` is a transport
failure (propagated as `AuthError::NetworkError` by `?`), `.ok` a received
response.  Non-success status yields `TokenExpired`; a success response
without an `auth-access-token` cookie yields `TokenNotFound`. -/
def refresh_token_result (exchange : Except ReqwestError HttpResponse) :
    Except AuthError String :=
  match exchange with
  | .error e => .error (.NetworkError e)
  | .ok resp =>
      if isSuccessStatus resp.status then
        match resp.access_cookie with
        | some v => .ok v
        | none => .error .TokenNotFound
      else .error .TokenExpired

/-- Observable network actions of `make_authenticated_request`: an
authenticated request sent with a given access token, or a redemption of
the refresh token. -/
inductive HttpEvent where
  | request (access_token : String)
  | refreshCall (refresh_token : String)
  deriving DecidableEq, Repr

/-- Translation of `AuthClient::make_authenticated_request`
(src/auth/client.rs lines 437-476).  `stored` is the token manager state;
`send i tok` is the network oracle for the `i`-th request carrying access
token `tok`; `refreshExchange` the oracle for the refresh endpoint.
Returns the result, the trace of network actions, and the tokens written
back to the token manager (none when nothing was stored). -/
def make_authenticated_request (stored : Option AuthTokens)
    (send : Nat → String → Except ReqwestError HttpResponse)
    (refreshExchange : Except ReqwestError HttpResponse) (now : Int) :
    Except AuthError HttpResponse × List HttpEvent × Option AuthTokens :=
  match stored with
  | none => (.error .TokenNotFound, [], none)
  | some tokens =>
      match send 0 tokens.access_token with
      | .error e =>
          (.error (.NetworkError e), [.request tokens.access_token], none)
      | .ok resp =>
          if resp.status = 401 then
            match refresh_token_result refreshExchange with
            | .error e =>
                (.error e,
                 [.request tokens.access_token,
                  .refreshCall tokens.refresh_token], none)
            | .ok new_access =>
                ((match send 1 new_access with
                  | .error e => .error (.NetworkError e)
                  | .ok resp2 => .ok resp2),
                 [.request tokens.access_token,
                  .refreshCall tokens.refresh_token,
                  .request new_access],
                 some (refresh_401_update tokens new_access now))
          else (.ok resp, [.request tokens.access_token], none)

/-- C3: when the first response has status 401, exactly one
refresh-and-retry cycle runs.  If the refresh endpoint rejects the
redemption, `TokenExpired` is surfaced after one request and one refresh
call, with no retry; if the refresh transport fails or the refresh
response carries no access cookie, the corresponding error is surfaced
likewise without a retry; if the refresh succeeds, the original request is
re-sent exactly once with the new access token, the refreshed tokens are
stored, and the retried response is returned whatever its status.  A
non-401 first response is returned directly with no refresh. -/
theorem auth_request_single_refresh_cycle (tokens : AuthTokens)
    (send : Nat → String → Except ReqwestError HttpResponse)
    (refreshExchange : Except ReqwestError HttpResponse) (now : Int)
    (resp : HttpResponse) (h0 : send 0 tokens.access_token = .ok resp) :
    (resp.status ≠ 401 →
      make_authenticated_request (some tokens) send refreshExchange now
        = (.ok resp, [.request tokens.access_token], none)) ∧
    (resp.status = 401 →
      (∀ rresp, refreshExchange = .ok rresp →
        isSuccessStatus rresp.status = false →
        make_authenticated_request (some tokens) send refreshExchange now
          = (.error .TokenExpired,
             [.request tokens.access_token,
              .refreshCall tokens.refresh_token], none)) ∧
      (∀ re, refreshExchange = .error re →
        make_authenticated_request (some tokens) send refreshExchange now
          = (.error (.NetworkError re),
             [.request tokens.access_token,
              .refreshCall tokens.refresh_token], none)) ∧
      (∀ rresp, refreshExchange = .ok rresp →
        isSuccessStatus rresp.status = true → rresp.access_cookie = none →
        make_authenticated_request (some tokens) send refreshExchange now
          = (.error .TokenNotFound,
             [.request tokens.access_token,
              .refreshCall tokens.refresh_token], none)) ∧
      (∀ rresp new_access resp2, refreshExchange = .ok rresp →
        isSuccessStatus rresp.status = true →
        rresp.access_cookie = some new_access →
        send 1 new_access = .ok resp2 →
        make_authenticated_request (some tokens) send refreshExchange now
          = (.ok resp2,
             [.request tokens.access_token,
              .refreshCall tokens.refresh_token, .request new_access],
             some (refresh_401_update tokens new_access now)))) := by
  constructor
  · intro hne
    simp only [make_authenticated_request, h0]
    rw [if_neg hne]
  · intro h401
    refine ⟨?_, ?_, ?_, ?_⟩
    · intro rresp hr hfail
      simp only [make_authenticated_request, h0]
      rw [if_pos h401]
      simp [refresh_token_result, hr, hfail]
    · intro re hr
      simp only [make_authenticated_request, h0]
      rw [if_pos h401]
      simp [refresh_token_result, hr]
    · intro rresp hr hsucc hcookie
      simp only [make_authenticated_request, h0]
      rw [if_pos h401]
      simp [refresh_token_result, hr, hsucc, hcookie]
    · intro rresp new_access resp2 hr hsucc hcookie hsend1
      simp only [make_authenticated_request, h0]
      rw [if_pos h401]
      simp [refresh_token_result, hr, hsucc, hcookie, hsend1]

/-- Witness for C3: a concrete 401 followed by a successful refresh and a
200 retry. -/
theorem auth_request_single_refresh_cycle_witness :
    make_authenticated_request (some (AuthTokens.mk "old" "rt" none))
        (fun i _ => if i = 0 then .ok (HttpResponse.mk 401 none)
          else .ok (HttpResponse.mk 200 none))
        (.ok (HttpResponse.mk 200 (some "new"))) 0
      = (.ok (HttpResponse.mk 200 none),
         [.request "old", .refreshCall "rt", .request "new"],
         some (refresh_401_update (AuthTokens.mk "old" "rt" none) "new" 0)) :=
  ((auth_request_single_refresh_cycle (AuthTokens.mk "old" "rt" none)
      (fun i _ => if i = 0 then .ok (HttpResponse.mk 401 none)
        else .ok (HttpResponse.mk 200 none))
      (.ok (HttpResponse.mk 200 (some "new"))) 0
      (HttpResponse.mk 401 none) rfl).2 rfl).2.2.2
    (HttpResponse.mk 200 (some "new")) "new" (HttpResponse.mk 200 none)
    rfl (by decide) rfl rfl

/-! ## src/utils/retry.rs loops and src/client/enhanced_client.rs (C1) -/

/-- Model of `EnhancedClientError` (src/client/enhanced_client.rs lines
11-27). -/
inductive EnhancedClientError where
  | AuthError (e : AuthError)
  | NetworkError (e : ReqwestError)
  | RateLimitExceeded
  | MaxRetriesExceeded
  | RequestFailed (msg : String)
  deriving DecidableEq, Repr

/-- Boolean substring test on character lists, modelling Rust
`str::contains` with a string pattern. -/
def containsSub (needle : List Char) : List Char → Bool
  | [] => needle.isEmpty
  | c :: rest => needle.isPrefixOf (c :: rest) || containsSub needle rest

/-- String wrapper for `containsSub`. -/
def strContains (hay needle : String) : Bool :=
  containsSub needle.toList hay.toList

/-- Translation of `impl RetryableError for reqwest::Error`
(src/utils/retry.rs lines 169-181): timeout/connect errors are retryable,
otherwise retryable iff the status is one of 429/500/502/503/504, and
retryable when there is no status. -/
def ReqwestError.is_retryable (e : ReqwestError) : Bool :=
  if e.is_timeout || e.is_connect then true
  else
    match e.status with
    | some s => decide (s = 429 ∨ s = 500 ∨ s = 502 ∨ s = 503 ∨ s = 504)
    | none => true

/-- Translation of `impl RetryableError for EnhancedClientError`
(src/client/enhanced_client.rs lines 29-40). -/
def EnhancedClientError.is_retryable : EnhancedClientError → Bool
  | .NetworkError e => e.is_timeout || e.is_connect
  | .RateLimitExceeded => true
  | .RequestFailed msg =>
      strContains msg "timeout" || strContains msg "connection"
  | _ => false

/-- Translation of the loop of `retry_with_config` (src/utils/retry.rs
lines 125-151), sleeping elided.  The operation is an oracle indexed by
the attempt number; the loop runs attempts `0..=max_retries`, retrying on
EVERY error and finally returning the last error.  The second component
counts how many times the operation ran. -/
def retryLoop {T E : Type} (op : Nat → Except E T) :
    Nat → Nat → Except E T × Nat
  | attempt, 0 => (op attempt, attempt + 1)
  | attempt, fuel + 1 =>
      match op attempt with
      | .ok v => (.ok v, attempt + 1)
      | .error _ => retryLoop op (attempt + 1) fuel

/-- Translation of `retry_with_config` (src/utils/retry.rs lines
125-151). -/
def retry_with_config {T E : Type} (config : RetryConfig)
    (op : Nat → Except E T) : Except E T × Nat :=
  retryLoop op 0 config.max_retries

/-- Translation of the loop of `retry_with_backoff` (src/utils/retry.rs
lines 183-213): identical to `retry_with_config` except that a
non-retryable error is returned at once. -/
def backoffLoop {T E : Type} (retryable : E → Bool)
    (op : Nat → Except E T) : Nat → Nat → Except E T × Nat
  | attempt, 0 => (op attempt, attempt + 1)
  | attempt, fuel + 1 =>
      match op attempt with
      | .ok v => (.ok v, attempt + 1)
      | .error e =>
          if retryable e then backoffLoop retryable op (attempt + 1) fuel
          else (.error e, attempt + 1)

/-- Translation of `retry_with_backoff` (src/utils/retry.rs lines
183-213), with the `RetryableError` dictionary passed explicitly. -/
def retry_with_backoff {T E : Type} (retryable : E → Bool)
    (config : RetryConfig) (op : Nat → Except E T) : Except E T × Nat :=
  backoffLoop retryable op 0 config.max_retries

/-- Translation of the error mapping inside `EnhancedClient::make_request`
(src/client/enhanced_client.rs lines 133-136). -/
def mapAuthError : AuthError → EnhancedClientError
  | .NetworkError ne => .NetworkError ne
  | e => .AuthError e

/-- Translation of the retry wiring of `EnhancedClient::make_request`
(src/client/enhanced_client.rs lines 110-140): the authenticated-request
primitive, its `AuthError` mapped into `EnhancedClientError`, is run
through `retry_with_config` (NOT `retry_with_backoff`). -/
def EnhancedClient.make_request_retry {T : Type} (retry_config : RetryConfig)
    (op : Nat → Except AuthError T) : Except EnhancedClientError T × Nat :=
  retry_with_config retry_config
    (fun n =>
      match op n with
      | .ok v => .ok v
      | .error e => .error (mapAuthError e))

/-- Translation of the retry configuration installed by
`EnhancedClient::new` (src/client/enhanced_client.rs lines 60-62):
default config with `max_delay` 10 s and jitter on. -/
def EnhancedClient.default_retry_config : RetryConfig :=
  RetryConfig.mk 3 100 10000 2 true

/-- C1 counterexample: `make_request` does NOT return fatal errors
immediately.  `InvalidCredentials` is classified non-retryable, yet with
the default configuration (`max_retries = 3`) the `retry_with_config`
loop inside `make_request` invokes the failing operation 4 times before
surfacing the error. -/
theorem make_request_retries_fatal_counterexample :
    (EnhancedClientError.AuthError .InvalidCredentials).is_retryable
        = false ∧
    (EnhancedClient.make_request_retry (T := Unit)
        EnhancedClient.default_retry_config
        (fun _ => .error .InvalidCredentials)).2 = 4 ∧
    (EnhancedClient.make_request_retry (T := Unit)
        EnhancedClient.default_retry_config
        (fun _ => .error .InvalidCredentials)).1
      = .error (.AuthError .InvalidCredentials) := by
  refine ⟨rfl, rfl, rfl⟩

theorem retryLoop_always_error_count {T E : Type}
    (op : Nat → Except E T) (fuel attempt : Nat)
    (herr : ∀ n, ∃ err, op n = .error err) :
    (retryLoop op attempt fuel).2 = attempt + fuel + 1 := by
  induction fuel generalizing attempt with
  | zero => rfl
  | succ k ih =>
      obtain ⟨err, herr0⟩ := herr attempt
      simp only [retryLoop, herr0]
      rw [ih (attempt + 1)]
      omega

/-- C1 amended: `make_request` runs the primitive through
`retry_with_config`, which consults no retryability classification: every
error, fatal or transient, is retried until the `max_retries + 1` attempts
are exhausted and the last error is surfaced.  The `RetryableError`
classification (timeout/connect network errors and `RateLimitExceeded`
retryable; everything else, including auth and crypto errors, fatal) is
honored only by `retry_with_backoff`, which `make_request` does not call
and which returns a non-retryable error after a single attempt. -/
theorem make_request_retry_spec {T : Type} (cfg : RetryConfig)
    (op : Nat → Except AuthError T)
    (bop : Nat → Except EnhancedClientError T) (e : EnhancedClientError)
    (herr : ∀ n, ∃ err, op n = .error err)
    (h0 : bop 0 = .error e) (hnr : e.is_retryable = false) :
    (EnhancedClient.make_request_retry cfg op).2 = cfg.max_retries + 1 ∧
    retry_with_backoff EnhancedClientError.is_retryable cfg bop
      = (.error e, 1) := by
  constructor
  · have hmap : ∀ n, ∃ err,
        (match op n with
          | .ok v => (.ok v : Except EnhancedClientError T)
          | .error e => .error (mapAuthError e)) = .error err := by
      intro n
      obtain ⟨err, h⟩ := herr n
      exact ⟨mapAuthError err, by simp [h]⟩
    unfold EnhancedClient.make_request_retry retry_with_config
    rw [retryLoop_always_error_count _ _ _ hmap]
    omega
  · unfold retry_with_backoff
    cases cfg.max_retries with
    | zero => simp [backoffLoop, h0]
    | succ k => simp [backoffLoop, h0, hnr]

/-- Witness for C1 at the default configuration and a constant
`InvalidCredentials` failure. -/
theorem make_request_retry_spec_witness :
    (EnhancedClient.make_request_retry (T := Unit)
        EnhancedClient.default_retry_config
        (fun _ => .error .InvalidCredentials)).2
      = EnhancedClient.default_retry_config.max_retries + 1 ∧
    retry_with_backoff EnhancedClientError.is_retryable
        EnhancedClient.default_retry_config
        (fun _ => (.error (.AuthError .InvalidCredentials) :
          Except EnhancedClientError Unit))
      = (.error (.AuthError .InvalidCredentials), 1) :=
  make_request_retry_spec EnhancedClient.default_retry_config
    (fun _ => .error .InvalidCredentials)
    (fun _ => .error (.AuthError .InvalidCredentials))
    (.AuthError .InvalidCredentials)
    (fun _ => ⟨.InvalidCredentials, rfl⟩) rfl (by rfl)

/-! ## src/utils/p256_crypto.rs : password-based P-256 key derivation -/

/-- The P-256 curve order: the repository's `CURVE_ORDER_HEX` constant
(src/utils/p256_crypto.rs line 10) parsed base-16. -/
def CURVE_ORDER : Nat :=
  0xffffffff00000000ffffffffffffffffbce6faada7179e84f3b9cac2fc632550

/-- The `PBKDF2_ITERATIONS` constant (src/utils/p256_crypto.rs line 11). -/
def PBKDF2_ITERATIONS : Nat := 600000

/-- Big-endian integer interpretation of a byte string
(`num_bigint::BigUint::from_bytes_be`). -/
def bytesToNatBE (bs : List Nat) : Nat :=
  bs.foldl (fun acc b => acc * 256 + b) 0

/-- Model of `AxiomError::Crypto` (src/errors.rs). -/
structure CryptoError where
  message : String
  deriving DecidableEq, Repr

/-- Model of `P256KeyPair` (src/utils/p256_crypto.rs lines 14-19), with
fields as byte strings; the source additionally hex-encodes the keys and
base64-encodes the salt, both injective re-encodings. -/
structure P256KeyPair where
  private_key : List Nat
  public_key : List Nat
  client_secret : List Nat
  deriving DecidableEq, Repr

/-- Translation of the rejection-sampling loop of
`generate_p256_keypair_from_password` (src/utils/p256_crypto.rs lines
44-84).  External cryptographic primitives are oracle parameters:
`kdf iters pw salt` models `pbkdf2::<Hmac<Sha256>>` at the given
iteration count (the source always passes `PBKDF2_ITERATIONS`), and
`dpk` models `SecretKey::from_bytes(..).public_key().to_encoded_point(true)`,
total because the source only reaches it for scalars in `[1, order)`,
where the p256 crate cannot fail.  `rng i` supplies the 32 random salt
bytes drawn on loop iteration `i` when no salt was provided.  `fuel`
bounds the loop, `none` meaning no acceptance within `fuel` rounds; the
second component counts PBKDF2 derivations performed. -/
def generateLoop (kdf : Nat → List Nat → List Nat → List Nat)
    (dpk : List Nat → List Nat) (rng : Nat → List Nat)
    (password : List Nat) (salt : Option (List Nat)) :
    Nat → Nat → Option (Except CryptoError P256KeyPair) × Nat
  | _, 0 => (none, 0)
  | iter, fuel + 1 =>
      let salt_bytes := match salt with
        | some s => s
        | none => rng iter
      let derived := kdf PBKDF2_ITERATIONS password salt_bytes
      let key_bigint := bytesToNatBE derived
      if key_bigint < CURVE_ORDER ∧ key_bigint ≠ 0 then
        (some (.ok (P256KeyPair.mk derived (dpk derived) salt_bytes)), 1)
      else if salt.isSome then
        (some (.error (CryptoError.mk
          "Failed to generate valid API key with provided salt")), 1)
      else
        let p := generateLoop kdf dpk rng password salt (iter + 1) fuel
        (p.1, p.2 + 1)

/-- Translation of `generate_p256_keypair_from_password`
(src/utils/p256_crypto.rs lines 35-85): the loop started at its first
iteration. -/
def generate_p256_keypair_from_password
    (kdf : Nat → List Nat → List Nat → List Nat)
    (dpk : List Nat → List Nat) (rng : Nat → List Nat)
    (password : List Nat) (salt : Option (List Nat)) (fuel : Nat) :
    Option (Except CryptoError P256KeyPair) × Nat :=
  generateLoop kdf dpk rng password salt 0 fuel

/-- Translation of `recreate_keypair_from_client_secret`
(src/utils/p256_crypto.rs lines 113-119): base64-decode the client secret
(`decrypt_client_secret`, decoder an oracle, failure a crypto error) and
rerun the derivation with the decoded salt supplied. -/
def recreate_keypair_from_client_secret
    (kdf : Nat → List Nat → List Nat → List Nat)
    (dpk : List Nat → List Nat) (rng : Nat → List Nat)
    (b64decode : String → Option (List Nat))
    (password : List Nat) (client_secret : String) (fuel : Nat) :
    Option (Except CryptoError P256KeyPair) × Nat :=
  match b64decode client_secret with
  | none =>
      (some (.error (CryptoError.mk "Failed to decode client secret")), 0)
  | some salt_bytes =>
      generate_p256_keypair_from_password kdf dpk rng password
        (some salt_bytes) fuel

theorem generateLoop_salted (kdf : Nat → List Nat → List Nat → List Nat)
    (dpk : List Nat → List Nat) (rng : Nat → List Nat)
    (password s : List Nat) (iter f : Nat) :
    generateLoop kdf dpk rng password (some s) iter (f + 1)
      = (if bytesToNatBE (kdf PBKDF2_ITERATIONS password s) < CURVE_ORDER
            ∧ bytesToNatBE (kdf PBKDF2_ITERATIONS password s) ≠ 0 then
          (some (.ok (P256KeyPair.mk (kdf PBKDF2_ITERATIONS password s)
            (dpk (kdf PBKDF2_ITERATIONS password s)) s)), 1)
        else
          (some (.error (CryptoError.mk
            "Failed to generate valid API key with provided salt")), 1)) := by
  simp only [generateLoop, Option.isSome_some, if_true]

theorem generateLoop_salted_rng_irrelevant
    (kdf : Nat → List Nat → List Nat → List Nat)
    (dpk : List Nat → List Nat) (rng rng2 : Nat → List Nat)
    (password s : List Nat) (iter fuel : Nat) :
    generateLoop kdf dpk rng password (some s) iter fuel
      = generateLoop kdf dpk rng2 password (some s) iter fuel := by
  cases fuel with
  | zero => rfl
  | succ f => rw [generateLoop_salted, generateLoop_salted]

/-- C4: with a supplied salt, the scalar derived by a single
PBKDF2-HMAC-SHA256 run at 600,000 iterations, read big-endian, is
accepted iff it is nonzero and strictly below the P-256 curve order;
acceptance yields the key pair built from it, rejection yields a crypto
error — in both cases exactly one derivation is performed, never a retry.
The recreation from a stored client secret is deterministic: its result
does not depend on the random source, so identical inputs give identical
private key, public key and client secret on every call. -/
theorem p256_keypair_salted_spec
    (kdf : Nat → List Nat → List Nat → List Nat)
    (dpk : List Nat → List Nat) (rng rng2 : Nat → List Nat)
    (b64decode : String → Option (List Nat))
    (password s : List Nat) (client_secret : String) (fuel : Nat)
    (hfuel : 1 ≤ fuel) :
    (0 < bytesToNatBE (kdf PBKDF2_ITERATIONS password s) ∧
        bytesToNatBE (kdf PBKDF2_ITERATIONS password s) < CURVE_ORDER →
      generate_p256_keypair_from_password kdf dpk rng password (some s) fuel
        = (some (.ok (P256KeyPair.mk (kdf PBKDF2_ITERATIONS password s)
            (dpk (kdf PBKDF2_ITERATIONS password s)) s)), 1)) ∧
    (¬(0 < bytesToNatBE (kdf PBKDF2_ITERATIONS password s) ∧
        bytesToNatBE (kdf PBKDF2_ITERATIONS password s) < CURVE_ORDER) →
      generate_p256_keypair_from_password kdf dpk rng password (some s) fuel
        = (some (.error (CryptoError.mk
            "Failed to generate valid API key with provided salt")), 1)) ∧
    recreate_keypair_from_client_secret kdf dpk rng b64decode password
        client_secret fuel
      = recreate_keypair_from_client_secret kdf dpk rng2 b64decode password
        client_secret fuel := by
  obtain ⟨f, rfl⟩ : ∃ f, fuel = f + 1 := ⟨fuel - 1, by omega⟩
  refine ⟨?_, ?_, ?_⟩
  · intro h
    unfold generate_p256_keypair_from_password
    rw [generateLoop_salted, if_pos (by omega)]
  · intro h
    unfold generate_p256_keypair_from_password
    rw [generateLoop_salted, if_neg (by omega)]
  · unfold recreate_keypair_from_client_secret
    cases b64decode client_secret with
    | none => rfl
    | some salt_bytes =>
        exact generateLoop_salted_rng_irrelevant kdf dpk rng rng2 password
          salt_bytes 0 (f + 1)

/-- Witness for C4 with a KDF oracle deriving the byte string `[1]`
(scalar 1, accepted) and concrete salt, password and random sources. -/
theorem p256_keypair_salted_spec_witness :
    generate_p256_keypair_from_password (fun _ _ _ => [1])
        (fun d => 2 :: d) (fun _ => []) [7] (some [3]) 1
      = (some (.ok (P256KeyPair.mk [1] [2, 1] [3])), 1) ∧
    recreate_keypair_from_client_secret (fun _ _ _ => [1]) (fun d => 2 :: d)
        (fun _ => []) (fun _ => some [3]) [7] "secret" 1
      = recreate_keypair_from_client_secret (fun _ _ _ => [1])
        (fun d => 2 :: d) (fun i => [i]) (fun _ => some [3]) [7] "secret" 1 :=
  ⟨(p256_keypair_salted_spec (fun _ _ _ => [1]) (fun d => 2 :: d)
        (fun _ => []) (fun _ => []) (fun _ => some [3]) [7] [3] "secret" 1
        (by norm_num)).1 (by decide),
    (p256_keypair_salted_spec (fun _ _ _ => [1]) (fun d => 2 :: d)
        (fun _ => []) (fun i => [i]) (fun _ => some [3]) [7] [3] "secret" 1
        (by norm_num)).2.2⟩

end AxiomTrade
